import Mathlib

/-!
Shallow embedding of `src/import-weight.py`: a converter that reads a Google
Fit weight JSON export and emits `date,weight` CSV rows on standard output.

The embedding models:
  * the JSON document shape the program manipulates (`Doc`, `DataPoint`, …),
    with `Option` fields for keys that may be absent;
  * the validation condition of `process_weight_data` (lines 41-47),
    including the anchored regular-expression search
    `re.search('^raw:com.google.weight', …)` where `.` matches any
    character except a newline;
  * the per-point transformation (lines 50-55): nanoseconds divided by 10^9,
    interpreted at a local timezone offset, truncated to a calendar day and
    formatted `YYYY-MM-DD`, raising (as `datetime.fromtimestamp` and the
    int-to-float conversion do) when the local date falls outside the
    supported year range 1-9999; the weight taken from
    `fitValue[0]['value']['fpVal']`;
  * Python exceptions as an `Except PyError` result (TypeError, KeyError,
    IndexError, FileNotFoundError, json decode error);
  * `main` (lines 66-74): CSV header plus rows written to stdout only when at
    least one row was produced, exit code 0 on success and 1 on an uncaught
    exception.
-/

namespace ImportWeight

/-- A JSON scalar as it can appear in the `Data Source` field: a string, a
number, `null`, or some other non-string value (list, object, boolean). -/
inductive JVal where
  | jstr (s : String)
  | jnum (q : ℚ)
  | jnull
  | jother
  deriving DecidableEq

/-- The object `{"fpVal": …}` nested inside a fit value; the field may be
absent. -/
structure ValueObj where
  fpVal : Option ℚ
  deriving DecidableEq

/-- One element of the `fitValue` array: `{"value": {…}}`; the `value` key may
be absent. -/
structure FitElem where
  value : Option ValueObj
  deriving DecidableEq

/-- One record of the `Data Points` array.  Besides the two fields the program
reads (`startTimeNanos` and `fitValue`), the export carries further fields
(`endTimeNanos`, `modifiedTimeMillis`, `dataTypeName`, `originDataSourceId`,
`rawTimestampNanos`) which are modelled so that independence from them can be
stated. -/
structure DataPoint where
  startTimeNanos : Option Int
  fitValue : Option (List FitElem)
  endTimeNanos : Option Int
  modifiedTimeMillis : Option Int
  dataTypeName : Option String
  originDataSourceId : Option String
  rawTimestampNanos : Option Int
  deriving DecidableEq

/-- The root JSON object: `Data Source` (any JSON value, possibly absent) and
`Data Points` (possibly absent). -/
structure Doc where
  dataSource : Option JVal
  dataPoints : Option (List DataPoint)
  deriving DecidableEq

/-- The parsed content of the input file: either not parseable as JSON, or a
root document. -/
inductive Input where
  | malformed
  | parsed (doc : Doc)
  deriving DecidableEq

/-- The argument passed to `process_weight_data`: a string path, or a value of
any non-string Python type. -/
inductive Arg where
  | strArg (path : String)
  | nonStr
  deriving DecidableEq

/-- Python exceptions that can escape `process_weight_data`:
  * `typeErrorArg`: the explicit `raise TypeError` on line 35;
  * `typeErrorReSearch`: `re.search` applied to a non-string `Data Source`;
  * `fileNotFoundError`: `open` on a missing file;
  * `jsonDecodeError`: `json.load` on malformed input;
  * `dateRangeError`: the numeric-range exceptions of lines 51-52 — the
    `OverflowError` of converting a huge int to float in `/ 1e9`, and the
    `OverflowError`/`OSError`/`ValueError` of `datetime.fromtimestamp` for
    timestamps whose local date falls outside `datetime`'s supported range;
  * `keyError k` / `indexError`: missing dict key or list index in a data
    point. -/
inductive PyError where
  | typeErrorArg
  | typeErrorReSearch
  | fileNotFoundError
  | jsonDecodeError
  | dateRangeError
  | keyError (k : String)
  | indexError
  deriving DecidableEq

/-- An output row: the formatted date string paired with the weight value. -/
abbrev Row := String × ℚ

/-- The regular-expression pattern `^raw:com.google.weight` as a character
pattern: `some c` is a literal character, `none` is the metacharacter `.`,
which matches any character except a newline (default `re` flags). -/
def patChars : List (Option Char) :=
  [some 'r', some 'a', some 'w', some ':', some 'c', some 'o', some 'm', none,
   some 'g', some 'o', some 'o', some 'g', some 'l', some 'e', none,
   some 'w', some 'e', some 'i', some 'g', some 'h', some 't']

/-- Match a character pattern against the beginning of a character list. -/
def matchesAt : List (Option Char) → List Char → Bool
  | [], _ => true
  | _ :: _, [] => false
  | some p :: ps, c :: cs => c == p && matchesAt ps cs
  | none :: ps, c :: cs => c != '\n' && matchesAt ps cs

/-- `re.search('^raw:com.google.weight', s)` is truthy: since the pattern is
anchored at the start, the search succeeds exactly when the pattern matches at
the beginning of `s`. -/
def regexMatch (s : String) : Bool :=
  matchesAt patChars s.data

/-- Whether the validation on lines 41-46 routes the document to the
"No valid weight data" branch (`.ok true`), to processing (`.ok false`), or
raises.  The Python `or` chain short-circuits left to right:
`data.get("Data Source") is None` (an absent key or a JSON `null` both give
`None`), then `not re.search('^raw:com.google.weight', data["Data Source"])`
(a `TypeError` if the value is not a string), then
`data.get('Data Points') is None`, then `len(data['Data Points']) == 0`. -/
def validate (doc : Doc) : Except PyError Bool :=
  match doc.dataSource with
  | none => .ok true
  | some .jnull => .ok true
  | some (.jstr s) =>
    if regexMatch s then
      match doc.dataPoints with
      | none => .ok true
      | some l => .ok (l.length == 0)
    else .ok true
  | some (.jnum _) => .error .typeErrorReSearch
  | some .jother => .error .typeErrorReSearch

/-- Floor division used to model local-day truncation exactly on integers. -/
def daysOfNanos (tz n : Int) : Int :=
  Int.fdiv (n + tz * 1000000000) 86400000000000

/-- Civil date (year, month, day) from a count of days since 1970-01-01
(proleptic Gregorian calendar); all intermediate divisions act on
non-negative values. -/
def civilFromDays (z : Int) : Int × Int × Int :=
  let w := z + 719468
  let era := Int.fdiv w 146097
  let doe := w - era * 146097
  let yoe := Int.fdiv (doe - Int.fdiv doe 1460 + Int.fdiv doe 36524 - Int.fdiv doe 146096) 365
  let y := yoe + era * 400
  let doy := doe - (365 * yoe + Int.fdiv yoe 4 - Int.fdiv yoe 100)
  let mp := Int.fdiv (5 * doy + 2) 153
  let d := doy - Int.fdiv (153 * mp + 2) 5 + 1
  let m := mp + (if mp < 10 then 3 else -9)
  (y + (if m ≤ 2 then 1 else 0), m, d)

/-- Zero-pad the decimal representation of an integer to a given width,
as the `strftime` fields `%Y`, `%m`, `%d` do. -/
def zpad (w : Nat) (n : Int) : String :=
  let s := toString n
  String.mk (List.replicate (w - s.length) '0' ++ s.data)

/-- `datetime.strftime('%Y-%m-%d')` for the civil date of a day count. -/
def strftimeYmd (z : Int) : String :=
  let c := civilFromDays z
  zpad 4 c.1 ++ "-" ++ zpad 2 c.2.1 ++ "-" ++ zpad 2 c.2.2

/-- The day index of `datetime.min.date()`, 0001-01-01 (`MINYEAR` is 1). -/
def minLocalDay : Int := -719162

/-- The day index of `datetime.max.date()`, 9999-12-31 (`MAXYEAR` is 9999). -/
def maxLocalDay : Int := 2932896

/-- Lines 51-52: `dp['startTimeNanos'] / 1e9` then
`datetime.fromtimestamp(...)` at the local offset `tz`, modelled at day
granularity: the local day index when the local date is representable by
`datetime` (year 1 to 9999), and an exception (`dateRangeError`, standing
for the `OverflowError`/`OSError`/`ValueError` those lines can raise)
otherwise. -/
def fromtimestampDay (tz n : Int) : Except PyError Int :=
  let z := daysOfNanos tz n
  if z < minLocalDay ∨ maxLocalDay < z then .error .dateRangeError
  else .ok z

/-- Lines 51-53: divide `startTimeNanos` by 10^9 to get (fractional) epoch
seconds, interpret at the local timezone offset `tz` (in seconds east of
UTC), truncate to a calendar day — raising if the local date is outside
`datetime`'s supported range — and format `YYYY-MM-DD`.  The day index
`⌊(n / 10^9 + tz) / 86400⌋` is computed exactly as
`Int.fdiv (n + tz * 10^9) (86400 * 10^9)`. -/
def dateOfNanos (tz n : Int) : Except PyError String :=
  match fromtimestampDay tz n with
  | .error e => .error e
  | .ok z => .ok (strftimeYmd z)

/-- The body of the `for` loop (lines 51-55) for one data point, in the
source's execution order: `dp['startTimeNanos']` (KeyError if absent), the
date conversion of lines 51-53 (which can raise `dateRangeError`), then
`dp['fitValue'][0]['value']['fpVal']` (KeyError / IndexError along the
chain), yielding the `(date, weight)` pair. -/
def extractRow (tz : Int) (dp : DataPoint) : Except PyError Row :=
  match dp.startTimeNanos with
  | none => .error (.keyError "startTimeNanos")
  | some t =>
    match dateOfNanos tz t with
    | .error e => .error e
    | .ok date =>
      match dp.fitValue with
      | none => .error (.keyError "fitValue")
      | some fv =>
        match fv.head? with
        | none => .error .indexError
        | some e0 =>
          match e0.value with
          | none => .error (.keyError "value")
          | some v =>
            match v.fpVal with
            | none => .error (.keyError "fpVal")
            | some w => .ok (date, w)

/-- The `for dp in data['Data Points']` loop: rows are appended in input
order; the first exception aborts the whole loop. -/
def mapExtract (tz : Int) : List DataPoint → Except PyError (List Row)
  | [] => .ok []
  | dp :: rest =>
    match extractRow tz dp with
    | .error e => .error e
    | .ok r =>
      match mapExtract tz rest with
      | .error e => .error e
      | .ok rs => .ok (r :: rs)

/-- The message printed (to standard output, via `print`) on validation
failure. -/
def noticeLine : String := "No valid weight data found in the input file."

/-- `process_weight_data` applied to an already-parsed document: validation,
then either the notice (returned as a printed stdout line, with no rows) or
the extracted rows (with nothing printed). -/
def runDoc (tz : Int) (doc : Doc) : Except PyError (List String × List Row) :=
  match validate doc with
  | .error e => .error e
  | .ok true => .ok ([noticeLine], [])
  | .ok false =>
    match mapExtract tz (doc.dataPoints.getD []) with
    | .error e => .error e
    | .ok rows => .ok ([], rows)

/-- `process_weight_data` (lines 21-58).  `fs` maps a path to the parsed
content of the file at that path (`none`: no such file).  The `isinstance`
check on lines 34-35 runs before any file access; `open`/`json.load` on
lines 37-38 can raise; then the document is processed.  The result carries
the lines printed so far and the returned `output_data` list. -/
def process_weight_data (tz : Int) (fs : String → Option Input) (arg : Arg) :
    Except PyError (List String × List Row) :=
  match arg with
  | .nonStr => .error .typeErrorArg
  | .strArg path =>
    match fs path with
    | none => .error .fileNotFoundError
    | some .malformed => .error .jsonDecodeError
    | some (.parsed doc) => runDoc tz doc

/-- What one run of the program leaves behind: the process exit code and the
lines written to standard output (uncaught exceptions go to standard error,
which is not modelled). -/
structure RunResult where
  exitCode : Nat
  stdout : List String
  deriving DecidableEq

/-- Remove every factor `p` from `n` (fuel-bounded; `fuel = n` suffices),
returning the stripped number and the exponent removed. -/
def stripPow (p : Nat) : Nat → Nat → Nat × Nat
  | 0, n => (n, 0)
  | f + 1, n =>
    if 2 ≤ p && 1 ≤ n && n % p == 0 then
      let r := stripPow p f (n / p)
      (r.1, r.2 + 1)
    else (n, 0)

/-- Render a weight value the way `csv.writer` renders the Python value
parsed from the JSON number: an integral value prints without a decimal
part (JSON `89` parses to the int `89` and prints `89`), and a value with a
finite decimal expansion (denominator `2^a * 5^b`) prints that exact
expansion with no trailing zeros (`145/2` prints `72.5`), which is what
`str()` produces whenever the JSON literal is the shortest representation
of its float.  Other denominators cannot arise from a JSON decimal literal;
they fall back to the canonical form. -/
def renderWeight (q : ℚ) : String :=
  if q.den == 1 then toString q.num
  else
    let s2 := stripPow 2 q.den q.den
    let s5 := stripPow 5 s2.1 s2.1
    if s5.1 == 1 then
      let k := max s2.2 s5.2
      let scaled := q.num.natAbs * 10 ^ k / q.den
      let sgn := if q.num < 0 then "-" else ""
      sgn ++ toString (scaled / 10 ^ k) ++ "." ++ zpad k (Int.ofNat (scaled % 10 ^ k))
    else toString q

/-- The CSV header row written by line 73. -/
def csvHeader : String := "date,weight"

/-- One CSV data row written by line 74: date and weight, comma-delimited. -/
def csvLine (r : Row) : String :=
  r.1 ++ "," ++ renderWeight r.2

/-- `main` (lines 66-74): run `process_weight_data`; on an uncaught exception
the interpreter exits with status 1 having written nothing to stdout; on
success exit 0, and write the header plus one line per row exactly when
`output_data` is non-empty (the notice, if any, was already printed to
stdout by `process_weight_data`). -/
def mainRun (tz : Int) (fs : String → Option Input) (arg : Arg) : RunResult :=
  match process_weight_data tz fs arg with
  | .error _ => { exitCode := 1, stdout := [] }
  | .ok (notes, rows) =>
    { exitCode := 0
      stdout := notes ++ (if rows.isEmpty then [] else csvHeader :: rows.map csvLine) }

/-- The fields of a data point that `process_weight_data` reads:
`startTimeNanos` and the chain `fitValue[0]['value']['fpVal']`, each step
keeping track of presence. -/
def dpProj (dp : DataPoint) : Option Int × Option (Option (Option (Option ℚ))) :=
  (dp.startTimeNanos,
   dp.fitValue.map fun l => l.head?.map fun e => e.value.map fun v => v.fpVal)

/-- The data source string of the example in the source file's header comment. -/
def sampleSrc : String :=
  "raw:com.google.weight:com.google.android.apps.fitness:samsung:SM-N9005:d24315b1d42ed56e:user_input"

/-- The data point of the example in the source file's header comment. -/
def sampleDP : DataPoint :=
  { startTimeNanos := some 1451624839273000000
    fitValue := some [{ value := some { fpVal := some 89 } }]
    endTimeNanos := some 1451624839273000000
    modifiedTimeMillis := some 1451631136423
    dataTypeName := some "com.google.weight"
    originDataSourceId := some sampleSrc
    rawTimestampNanos := some 0 }

/-- The example document from the source file's header comment. -/
def sampleDoc : Doc :=
  { dataSource := some (.jstr sampleSrc), dataPoints := some [sampleDP] }

/-- Like `sampleDP` but with a different `endTimeNanos` and an extra second
`fitValue` element: it differs from `sampleDP` only in fields the program
never reads. -/
def sampleDP2 : DataPoint :=
  { sampleDP with
    endTimeNanos := some 99
    modifiedTimeMillis := none
    fitValue := some [{ value := some { fpVal := some 89 } }, { value := none }] }

/-- `sampleDoc` with `sampleDP` replaced by `sampleDP2`. -/
def sampleDoc2 : Doc :=
  { dataSource := some (.jstr sampleSrc), dataPoints := some [sampleDP2] }

/-- A data source string that does NOT start with the literal
`raw:com.google.weight` but does match the regular expression
`^raw:com.google.weight`, because `.` matches any character. -/
def oddSrc : String := "raw:comxgooglexweight"

/-- A document whose source is `oddSrc` and that carries one valid data
point. -/
def oddDoc : Doc :=
  { dataSource := some (.jstr oddSrc), dataPoints := some [sampleDP] }

/-- A document with neither a `Data Source` nor a `Data Points` key. -/
def emptyDoc : Doc := { dataSource := none, dataPoints := none }

/-- A data point with no keys at all: reading `startTimeNanos` raises. -/
def badDP : DataPoint :=
  { startTimeNanos := none, fitValue := none, endTimeNanos := none
    modifiedTimeMillis := none, dataTypeName := none
    originDataSourceId := none, rawTimestampNanos := none }

/-- A document with a matching source whose second data point is `badDP`. -/
def badDoc : Doc :=
  { dataSource := some (.jstr sampleSrc), dataPoints := some [sampleDP, badDP] }

/-- A document whose `Data Source` is the number `5` rather than a string. -/
def numSrcDoc : Doc :=
  { dataSource := some (.jnum 5), dataPoints := some [sampleDP] }

/-- A data point carrying both required fields whose `startTimeNanos` is far
beyond `datetime`'s supported range. -/
def bigTsDP : DataPoint :=
  { startTimeNanos := some (10 ^ 40)
    fitValue := some [{ value := some { fpVal := some 89 } }]
    endTimeNanos := none, modifiedTimeMillis := none, dataTypeName := none
    originDataSourceId := none, rawTimestampNanos := none }

/-- A document with a matching source whose single data point is `bigTsDP`. -/
def bigTsDoc : Doc :=
  { dataSource := some (.jstr sampleSrc), dataPoints := some [bigTsDP] }

/-- A one-file filesystem: every path resolves to the given content. -/
def fsOf (i : Input) : String → Option Input := fun _ => some i

/-- A document whose source neither starts with the literal required text nor
matches the pattern. -/
def nonMatchDoc : Doc :=
  { dataSource := some (.jstr "derived:com.google.weight"), dataPoints := some [sampleDP] }

/-- A document with a matching source and an empty `Data Points` list. -/
def emptyPointsDoc : Doc :=
  { dataSource := some (.jstr sampleSrc), dataPoints := some [] }

/-- When the loop succeeds, it yields one row per data point, and the `i`-th
row is the extraction of the `i`-th data point. -/
theorem mapExtract_spec (tz : Int) (l : List DataPoint) (r : List Row)
    (h : mapExtract tz l = .ok r) :
    r.length = l.length ∧
    ∀ i (hi : i < l.length) (hr : i < r.length),
      extractRow tz (l.get ⟨i, hi⟩) = .ok (r.get ⟨i, hr⟩) := by
  induction l generalizing r with
  | nil =>
    simp only [mapExtract] at h
    injection h with h
    subst h
    exact ⟨rfl, fun i hi => absurd hi (by simp)⟩
  | cons dp rest ih =>
    simp only [mapExtract] at h
    cases he : extractRow tz dp with
    | error e => rw [he] at h; cases h
    | ok a =>
      rw [he] at h
      cases hm : mapExtract tz rest with
      | error e => rw [hm] at h; cases h
      | ok rs =>
        rw [hm] at h
        injection h with h
        subst h
        obtain ⟨hlen, hpt⟩ := ih rs hm
        refine ⟨by simp [hlen], ?_⟩
        intro i hi hr
        cases i with
        | zero => simpa using he
        | succ j => exact hpt j (by simpa using hi) (by simpa using hr)

/-- If any data point of the list fails to extract, the loop fails. -/
theorem mapExtract_error_of_mem (tz : Int) (l : List DataPoint) (dp : DataPoint)
    (hmem : dp ∈ l) (e : PyError) (he : extractRow tz dp = .error e) :
    ∃ e2, mapExtract tz l = .error e2 := by
  induction l with
  | nil => cases hmem
  | cons hd rest ih =>
    cases hmem with
    | head => exact ⟨e, by simp [mapExtract, he]⟩
    | tail _ hmem2 =>
      cases hh : extractRow tz hd with
      | error e3 => exact ⟨e3, by simp [mapExtract, hh]⟩
      | ok a =>
        obtain ⟨e2, h2⟩ := ih hmem2
        exact ⟨e2, by simp [mapExtract, hh, h2]⟩

/-- The range check of lines 51-52 raises only the range error. -/
theorem fromtimestampDay_error_eq (tz t : Int) (e : PyError)
    (h : fromtimestampDay tz t = .error e) : e = .dateRangeError := by
  unfold fromtimestampDay at h
  by_cases hz : daysOfNanos tz t < minLocalDay ∨ maxLocalDay < daysOfNanos tz t
  · rw [if_pos hz] at h
    injection h with h
    exact h.symm
  · rw [if_neg hz] at h
    cases h

/-- The only exception the date conversion can raise is the range error. -/
theorem dateOfNanos_error_eq (tz t : Int) (e : PyError)
    (h : dateOfNanos tz t = .error e) : e = .dateRangeError := by
  unfold dateOfNanos at h
  cases hf : fromtimestampDay tz t with
  | error e2 =>
    rw [hf] at h
    injection h with h
    rw [← h]
    exact fromtimestampDay_error_eq tz t e2 hf
  | ok z => rw [hf] at h; cases h

/-- Extraction of a data point never raises the `TypeError` of the
`isinstance` check. -/
theorem extractRow_ne_argError (tz : Int) (dp : DataPoint) :
    extractRow tz dp ≠ .error .typeErrorArg := by
  cases h1 : dp.startTimeNanos with
  | none => simp [extractRow, h1]
  | some t =>
    cases hd : dateOfNanos tz t with
    | error e =>
      have he := dateOfNanos_error_eq tz t e hd
      subst he
      simp [extractRow, h1, hd]
    | ok date =>
      cases h2 : dp.fitValue with
      | none => simp [extractRow, h1, hd, h2]
      | some fv =>
        cases h3 : fv.head? with
        | none => simp [extractRow, h1, hd, h2, h3]
        | some e0 =>
          cases h4 : e0.value with
          | none => simp [extractRow, h1, hd, h2, h3, h4]
          | some v =>
            cases h5 : v.fpVal with
            | none => simp [extractRow, h1, hd, h2, h3, h4, h5]
            | some w => simp [extractRow, h1, hd, h2, h3, h4, h5]

/-- The loop never raises the `TypeError` of the `isinstance` check. -/
theorem mapExtract_ne_argError (tz : Int) (l : List DataPoint) :
    mapExtract tz l ≠ .error .typeErrorArg := by
  induction l with
  | nil => simp [mapExtract]
  | cons dp rest ih =>
    simp only [mapExtract]
    cases he : extractRow tz dp with
    | error e =>
      have hne := extractRow_ne_argError tz dp
      rw [he] at hne
      intro hcon
      injection hcon with h2
      exact hne (by rw [h2])
    | ok a =>
      cases hm : mapExtract tz rest with
      | error e =>
        rw [hm] at ih
        intro hcon
        injection hcon with h2
        exact ih (by rw [h2])
      | ok rs => simp

/-- The only exception validation can raise is the `re.search` TypeError. -/
theorem validate_error_eq (doc : Doc) (e : PyError) (h : validate doc = .error e) :
    e = .typeErrorReSearch := by
  unfold validate at h
  cases h1 : doc.dataSource with
  | none => rw [h1] at h; cases h
  | some v =>
    rw [h1] at h
    cases v with
    | jstr s =>
      by_cases hr : regexMatch s
      · simp only [hr, if_true] at h
        cases hdp : doc.dataPoints <;> rw [hdp] at h <;> cases h
      · simp [hr] at h
    | jnum q => injection h with h; exact h.symm
    | jnull => cases h
    | jother => injection h with h; exact h.symm

/-- Processing a parsed document never raises the `isinstance` TypeError. -/
theorem runDoc_ne_argError (tz : Int) (doc : Doc) :
    runDoc tz doc ≠ .error .typeErrorArg := by
  unfold runDoc
  cases hv : validate doc with
  | error e =>
    have := validate_error_eq doc e hv
    subst this
    intro hcon
    injection hcon with h2
    cases h2
  | ok b =>
    cases b with
    | true => simp
    | false =>
      cases hm : mapExtract tz (doc.dataPoints.getD []) with
      | error e =>
        have hne := mapExtract_ne_argError tz (doc.dataPoints.getD [])
        rw [hm] at hne
        intro hcon
        injection hcon with h2
        exact hne (by rw [h2])
      | ok rows => simp

/-- Extraction reads nothing beyond the fields captured by `dpProj`. -/
theorem extractRow_congr (tz : Int) (dp1 dp2 : DataPoint)
    (h : dpProj dp1 = dpProj dp2) :
    extractRow tz dp1 = extractRow tz dp2 := by
  unfold dpProj at h
  injection h with h1 h2
  cases ht : dp2.startTimeNanos with
  | none => simp [extractRow, h1, ht]
  | some t =>
    cases hd : dateOfNanos tz t with
    | error e => simp [extractRow, h1, ht, hd]
    | ok date =>
      cases hf1 : dp1.fitValue with
      | none =>
        cases hf2 : dp2.fitValue with
        | none => simp [extractRow, h1, ht, hd, hf1, hf2]
        | some l2 => rw [hf1, hf2] at h2; cases h2
      | some l1 =>
        cases hf2 : dp2.fitValue with
        | none => rw [hf1, hf2] at h2; cases h2
        | some l2 =>
          rw [hf1, hf2] at h2
          simp only [Option.map_some'] at h2
          injection h2 with h2
          cases hh1 : l1.head? with
          | none =>
            rw [hh1] at h2
            cases hh2 : l2.head? with
            | none => simp [extractRow, h1, ht, hd, hf1, hf2, hh1, hh2]
            | some e2 => rw [hh2] at h2; cases h2
          | some e1 =>
            rw [hh1] at h2
            cases hh2 : l2.head? with
            | none => rw [hh2] at h2; cases h2
            | some e2 =>
              rw [hh2] at h2
              simp only [Option.map_some'] at h2
              injection h2 with h2
              cases hv1 : e1.value with
              | none =>
                rw [hv1] at h2
                cases hv2 : e2.value with
                | none => simp [extractRow, h1, ht, hd, hf1, hf2, hh1, hh2, hv1, hv2]
                | some v2 => rw [hv2] at h2; cases h2
              | some v1 =>
                rw [hv1] at h2
                cases hv2 : e2.value with
                | none => rw [hv2] at h2; cases h2
                | some v2 =>
                  rw [hv2] at h2
                  simp only [Option.map_some'] at h2
                  injection h2 with h2
                  simp [extractRow, h1, ht, hd, hf1, hf2, hh1, hh2, hv1, hv2, h2]

/-- The loop reads nothing beyond the `dpProj` image of the list. -/
theorem mapExtract_congr (tz : Int) (l1 l2 : List DataPoint)
    (h : l1.map dpProj = l2.map dpProj) :
    mapExtract tz l1 = mapExtract tz l2 := by
  induction l1 generalizing l2 with
  | nil =>
    cases l2 with
    | nil => rfl
    | cons b bs => simp at h
  | cons a as ih =>
    cases l2 with
    | nil => simp at h
    | cons b bs =>
      simp only [List.map_cons, List.cons.injEq] at h
      obtain ⟨h1, h2⟩ := h
      simp only [mapExtract, extractRow_congr tz a b h1, ih bs h2]

/-- Validation reads nothing beyond the source value and the `dpProj` image
of the data points (in particular only presence and length of the list). -/
theorem validate_congr (doc1 doc2 : Doc)
    (h1 : doc1.dataSource = doc2.dataSource)
    (h2 : doc1.dataPoints.map (List.map dpProj) = doc2.dataPoints.map (List.map dpProj)) :
    validate doc1 = validate doc2 := by
  unfold validate
  rw [h1]
  cases hs : doc2.dataSource with
  | none => rfl
  | some v =>
    cases v with
    | jstr s =>
      by_cases hr : regexMatch s
      · simp only [hr, if_true]
        cases hp1 : doc1.dataPoints with
        | none =>
          rw [hp1] at h2
          cases hp2 : doc2.dataPoints with
          | none => rfl
          | some l2 => rw [hp2] at h2; cases h2
        | some l1 =>
          rw [hp1] at h2
          cases hp2 : doc2.dataPoints with
          | none => rw [hp2] at h2; cases h2
          | some l2 =>
            rw [hp2] at h2
            simp only [Option.map_some'] at h2
            injection h2 with h2
            have hlen : l1.length = l2.length := by
              have := congrArg List.length h2
              simpa using this
            simp [hlen]
      · simp [hr]
    | jnum q => rfl
    | jnull => rfl
    | jother => rfl

/-- Counterexample to C1 as stated: `bigTsDoc` is well-formed in the
claim's sense — matching source, non-empty `Data Points`, its data point
carrying `startTimeNanos` and `fitValue[0].value.fpVal` — yet the run
writes 0 lines (not N+1 = 2) and exits 1: `datetime.fromtimestamp` raises
on the out-of-range timestamp 10^40. -/
theorem c1_counterexample :
    bigTsDoc.dataSource = some (.jstr sampleSrc) ∧
    regexMatch sampleSrc = true ∧
    bigTsDoc.dataPoints = some [bigTsDP] ∧
    bigTsDP.startTimeNanos = some (10 ^ 40) ∧
    bigTsDP.fitValue = some [{ value := some { fpVal := some 89 } }] ∧
    mainRun 0 (fsOf (.parsed bigTsDoc)) (.strArg "big.json") =
      { exitCode := 1, stdout := [] } :=
  ⟨rfl, by decide, rfl, rfl, rfl, rfl⟩

/-- C1 (amended): for every well-formed document with N data points (source
matching the pattern, data points non-empty, every point carrying the
required fields) on which, additionally, every timestamp converts within
`datetime`'s supported range — equivalently, on which the extraction loop
succeeds — the program exits 0 and writes exactly N+1 lines to standard
output: the `date,weight` header followed by one row per data point, where
the i-th data row is the extraction of the i-th input data point, in input
order.  A document with an out-of-range timestamp instead aborts. -/
theorem c1_wellformed_output (tz : Int) (fs : String → Option Input) (path : String)
    (doc : Doc) (s : String) (dps : List DataPoint) (rows : List Row)
    (hfs : fs path = some (.parsed doc))
    (hsrc : doc.dataSource = some (.jstr s))
    (hre : regexMatch s = true)
    (hdp : doc.dataPoints = some dps)
    (hne : dps ≠ [])
    (hrows : mapExtract tz dps = .ok rows) :
    (mainRun tz fs (.strArg path)).exitCode = 0 ∧
    (mainRun tz fs (.strArg path)).stdout = csvHeader :: rows.map csvLine ∧
    (mainRun tz fs (.strArg path)).stdout.length = dps.length + 1 ∧
    ∀ i (hi : i < dps.length) (hr : i < rows.length),
      extractRow tz (dps.get ⟨i, hi⟩) = .ok (rows.get ⟨i, hr⟩) := by
  obtain ⟨hlen, hpt⟩ := mapExtract_spec tz dps rows hrows
  have h0 : (dps.length == 0) = false := by
    cases dps with
    | nil => exact absurd rfl hne
    | cons a as => rfl
  have hv : validate doc = .ok false := by
    simp [validate, hsrc, hre, hdp, h0]
  have hrd : runDoc tz doc = .ok ([], rows) := by
    simp [runDoc, hv, hdp, hrows]
  have hrne : rows.isEmpty = false := by
    cases hrc : rows with
    | nil =>
      rw [hrc] at hlen
      exact absurd (List.length_eq_zero.mp hlen.symm) hne
    | cons r rs => rfl
  have hmr : mainRun tz fs (.strArg path) =
      { exitCode := 0, stdout := csvHeader :: rows.map csvLine } := by
    simp [mainRun, process_weight_data, hfs, hrd, hrne]
  refine ⟨by rw [hmr], by rw [hmr], ?_, hpt⟩
  rw [hmr]
  simp [hlen]

/-- Witness for C1: on the example document of the source header, the run
exits 0 and prints the header plus the single row `2016-01-01,89`. -/
theorem c1_witness :
    (mainRun 0 (fsOf (.parsed sampleDoc)) (.strArg "weight.json")).exitCode = 0 ∧
    (mainRun 0 (fsOf (.parsed sampleDoc)) (.strArg "weight.json")).stdout =
      csvHeader :: (([("2016-01-01", (89 : ℚ))] : List Row).map csvLine) ∧
    (mainRun 0 (fsOf (.parsed sampleDoc)) (.strArg "weight.json")).stdout.length = 2 :=
  have h := c1_wellformed_output 0 (fsOf (.parsed sampleDoc)) "weight.json"
    sampleDoc sampleSrc [sampleDP] [("2016-01-01", 89)] rfl rfl (by decide) rfl
    (by simp) (by rfl)
  ⟨h.1, h.2.1, h.2.2.1⟩

/-- Counterexample to C2 as stated: on a document with no `Data Source` key,
zero rows are produced, yet standard output is NOT empty — the explanatory
notice is printed to standard output itself (`print`), not to a separate
diagnostic stream. -/
theorem c2_counterexample :
    process_weight_data 0 (fsOf (.parsed emptyDoc)) (.strArg "w.json") =
      .ok ([noticeLine], []) ∧
    (mainRun 0 (fsOf (.parsed emptyDoc)) (.strArg "w.json")).stdout = [noticeLine] ∧
    (mainRun 0 (fsOf (.parsed emptyDoc)) (.strArg "w.json")).stdout ≠ [] := by
  refine ⟨rfl, rfl, ?_⟩
  decide

/-- C2 (amended): for every document on which validation fails (zero rows
produced), the run exits 0 and the only line on standard output is the
explanatory notice; no CSV content (in particular no header) appears on
standard output — but the notice itself IS written to standard output. -/
theorem c2_zero_rows_no_csv (tz : Int) (fs : String → Option Input) (path : String)
    (doc : Doc)
    (hfs : fs path = some (.parsed doc))
    (hv : validate doc = .ok true) :
    (mainRun tz fs (.strArg path)).exitCode = 0 ∧
    (mainRun tz fs (.strArg path)).stdout = [noticeLine] ∧
    csvHeader ∉ (mainRun tz fs (.strArg path)).stdout := by
  have hrd : runDoc tz doc = .ok ([noticeLine], []) := by
    simp [runDoc, hv]
  have hmr : mainRun tz fs (.strArg path) = { exitCode := 0, stdout := [noticeLine] } := by
    simp [mainRun, process_weight_data, hfs, hrd]
  refine ⟨by rw [hmr], by rw [hmr], ?_⟩
  rw [hmr]
  decide

/-- Witness for the amended C2, on the document with no keys. -/
theorem c2_witness :
    (mainRun 0 (fsOf (.parsed emptyDoc)) (.strArg "a.json")).exitCode = 0 ∧
    (mainRun 0 (fsOf (.parsed emptyDoc)) (.strArg "a.json")).stdout = [noticeLine] ∧
    csvHeader ∉ (mainRun 0 (fsOf (.parsed emptyDoc)) (.strArg "a.json")).stdout :=
  c2_zero_rows_no_csv 0 (fsOf (.parsed emptyDoc)) "a.json" emptyDoc rfl rfl

/-- Counterexample to C3 as stated: `oddSrc` does not start with the literal
prefix `raw:com.google.weight`, yet the run produces a data row for `oddDoc`
(rather than zero rows), because `.` in the pattern
`^raw:com.google.weight` matches any character. -/
theorem c3_counterexample :
    ("raw:com.google.weight").data.isPrefixOf oddSrc.data = false ∧
    oddDoc.dataSource = some (.jstr oddSrc) ∧
    (mainRun 0 (fsOf (.parsed oddDoc)) (.strArg "w.json")).stdout =
      [csvHeader, "2016-01-01,89"] := by
  refine ⟨by decide, rfl, by rfl⟩

/-- C3 (amended): for every document whose `Data Source` string does not
match the regular expression `^raw:com.google.weight` (`.` a wildcard; in
particular every string that neither starts with the literal text nor any
wildcard variation), the program produces zero output rows, prints the
notice, and exits 0. -/
theorem c3_nonmatching_source (tz : Int) (fs : String → Option Input) (path : String)
    (doc : Doc) (s : String)
    (hfs : fs path = some (.parsed doc))
    (hsrc : doc.dataSource = some (.jstr s))
    (hre : regexMatch s = false) :
    mainRun tz fs (.strArg path) = { exitCode := 0, stdout := [noticeLine] } := by
  have hv : validate doc = .ok true := by
    simp [validate, hsrc, hre]
  simp [mainRun, process_weight_data, hfs, runDoc, hv]

/-- Witness for the amended C3, on a source starting with `derived:`. -/
theorem c3_witness :
    mainRun 0 (fsOf (.parsed nonMatchDoc)) (.strArg "w2.json") =
      { exitCode := 0, stdout := [noticeLine] } :=
  c3_nonmatching_source 0 (fsOf (.parsed nonMatchDoc)) "w2.json" nonMatchDoc
    "derived:com.google.weight" rfl rfl (by decide)

/-- C4: the timestamp `1451624839273000000` nanoseconds, divided by 10^9 and
interpreted at the pinned local timezone offset 0 (UTC), is within the
supported range and formats as the date string `2016-01-01`, the time of
day being discarded. -/
theorem c4_pinned_timestamp_date :
    dateOfNanos 0 1451624839273000000 = .ok "2016-01-01" := rfl

/-- Counterexample to C5 as stated: `bigTsDP` carries both required fields
(`startTimeNanos` and `fitValue[0].value.fpVal` = 89), yet no output row is
emitted for it: `datetime.fromtimestamp` raises on the out-of-range
timestamp 10^40 before `fitValue` is even read. -/
theorem c5_counterexample :
    bigTsDP.startTimeNanos = some (10 ^ 40) ∧
    bigTsDP.fitValue = some [{ value := some { fpVal := some 89 } }] ∧
    extractRow 0 bigTsDP = .error .dateRangeError :=
  ⟨rfl, rfl, rfl⟩

/-- C5 (amended): for every valid data point whose timestamp also converts
within `datetime`'s supported range, the weight in its output row is
exactly the `fpVal` number in the first element of its `fitValue` sequence,
unmodified; a data point with an out-of-range timestamp raises before
reading `fitValue` and emits no row. -/
theorem c5_weight_unmodified (tz : Int) (dp : DataPoint) (t : Int) (w : ℚ)
    (d : String) (e0 : FitElem) (rest : List FitElem) (v : ValueObj)
    (ht : dp.startTimeNanos = some t)
    (hd : dateOfNanos tz t = .ok d)
    (hf : dp.fitValue = some (e0 :: rest))
    (hv : e0.value = some v)
    (hw : v.fpVal = some w) :
    extractRow tz dp = .ok (d, w) := by
  simp [extractRow, ht, hd, hf, hv, hw]

/-- Witness for C5: the data point with `fitValue [⟨value := ⟨fpVal := 89⟩⟩]`
yields weight 89 in its row. -/
theorem c5_witness :
    extractRow 0 sampleDP = .ok ("2016-01-01", (89 : ℚ)) :=
  c5_weight_unmodified 0 sampleDP 1451624839273000000 89 "2016-01-01"
    { value := some { fpVal := some 89 } } [] { fpVal := some 89 }
    rfl rfl rfl rfl rfl

/-- C6: for every document with a matching `Data Source` and an empty
`Data Points` sequence, the program produces zero output rows, prints the
"no valid weight data" notice, and exits 0. -/
theorem c6_empty_datapoints (tz : Int) (fs : String → Option Input) (path : String)
    (doc : Doc) (s : String)
    (hfs : fs path = some (.parsed doc))
    (hsrc : doc.dataSource = some (.jstr s))
    (hre : regexMatch s = true)
    (hdp : doc.dataPoints = some []) :
    mainRun tz fs (.strArg path) = { exitCode := 0, stdout := [noticeLine] } := by
  have hv : validate doc = .ok true := by
    simp [validate, hsrc, hre, hdp]
  simp [mainRun, process_weight_data, hfs, runDoc, hv]

/-- Witness for C6, on a matching source with an empty data point list. -/
theorem c6_witness :
    mainRun 0 (fsOf (.parsed emptyPointsDoc)) (.strArg "e.json") =
      { exitCode := 0, stdout := [noticeLine] } :=
  c6_empty_datapoints 0 (fsOf (.parsed emptyPointsDoc)) "e.json" emptyPointsDoc
    sampleSrc rfl rfl (by decide) rfl

/-- C7: if the input file is not parseable as JSON, or any data point of a
document under conversion (source matching, data points reached by the loop)
fails to extract a required nested field, the whole run aborts with a
non-zero exit code and nothing at all is written to standard output — no
per-record recovery, no partial output. -/
theorem c7_fatal_abort (tz : Int) (fs : String → Option Input) (path : String)
    (h : fs path = some .malformed ∨
      ∃ doc s dps dp e, fs path = some (.parsed doc) ∧
        doc.dataSource = some (.jstr s) ∧ regexMatch s = true ∧
        doc.dataPoints = some dps ∧ dp ∈ dps ∧
        extractRow tz dp = .error e) :
    (mainRun tz fs (.strArg path)).exitCode ≠ 0 ∧
    (mainRun tz fs (.strArg path)).stdout = [] := by
  cases h with
  | inl hmal =>
    constructor <;> simp [mainRun, process_weight_data, hmal]
  | inr hbad =>
    obtain ⟨doc, s, dps, dp, e, hfs, hsrc, hre, hdp, hmem, herr⟩ := hbad
    obtain ⟨e2, h2⟩ := mapExtract_error_of_mem tz dps dp hmem e herr
    have hne : dps ≠ [] := by
      intro hcon
      rw [hcon] at hmem
      cases hmem
    have h0 : (dps.length == 0) = false := by
      cases dps with
      | nil => exact absurd rfl hne
      | cons a as => rfl
    have hv : validate doc = .ok false := by
      simp [validate, hsrc, hre, hdp, h0]
    have hrd : runDoc tz doc = .error e2 := by
      simp [runDoc, hv, hdp, h2]
    constructor <;> simp [mainRun, process_weight_data, hfs, hrd]

/-- Witness for C7: a malformed file, and a document whose second data point
has no `startTimeNanos`, both abort with no output. -/
theorem c7_witness :
    ((mainRun 0 (fsOf .malformed) (.strArg "a.json")).exitCode ≠ 0 ∧
     (mainRun 0 (fsOf .malformed) (.strArg "a.json")).stdout = []) ∧
    ((mainRun 0 (fsOf (.parsed badDoc)) (.strArg "b.json")).exitCode ≠ 0 ∧
     (mainRun 0 (fsOf (.parsed badDoc)) (.strArg "b.json")).stdout = []) :=
  ⟨c7_fatal_abort 0 (fsOf .malformed) "a.json" (Or.inl rfl),
   c7_fatal_abort 0 (fsOf (.parsed badDoc)) "b.json"
     (Or.inr ⟨badDoc, sampleSrc, [sampleDP, badDP], badDP,
       .keyError "startTimeNanos", rfl, rfl, by decide, rfl, by decide, rfl⟩)⟩

/-- C8: `process_weight_data` raises the argument-type `TypeError` on every
non-string argument, before any file is opened (the result does not depend
on the filesystem); and on a string argument that `TypeError` is never
raised. -/
theorem c8_isinstance_check :
    (∀ (tz : Int) (fs : String → Option Input),
      process_weight_data tz fs .nonStr = .error .typeErrorArg) ∧
    (∀ (tz : Int) (fs : String → Option Input) (p : String),
      process_weight_data tz fs (.strArg p) ≠ .error .typeErrorArg) := by
  constructor
  · intro tz fs
    rfl
  · intro tz fs p hcon
    simp only [process_weight_data] at hcon
    cases hfs : fs p with
    | none =>
      rw [hfs] at hcon
      simp at hcon
    | some i =>
      cases i with
      | malformed =>
        rw [hfs] at hcon
        simp at hcon
      | parsed doc =>
        rw [hfs] at hcon
        exact runDoc_ne_argError tz doc hcon

/-- Witness for C8: a non-string argument raises the contract TypeError and
a string argument does not, on a concrete filesystem. -/
theorem c8_witness :
    process_weight_data 0 (fsOf (.parsed sampleDoc)) .nonStr = .error .typeErrorArg ∧
    process_weight_data 0 (fsOf (.parsed sampleDoc)) (.strArg "w.json") ≠
      .error .typeErrorArg :=
  ⟨c8_isinstance_check.1 0 (fsOf (.parsed sampleDoc)),
   c8_isinstance_check.2 0 (fsOf (.parsed sampleDoc)) "w.json"⟩

/-- C9: the result of processing a parsed document depends only on the
`Data Source` value and, per data point, on `startTimeNanos` and the chain
`fitValue[0].value.fpVal` (captured by `dpProj`): two documents agreeing on
these — whatever their `endTimeNanos`, `modifiedTimeMillis`, `dataTypeName`,
`originDataSourceId`, `rawTimestampNanos` or `fitValue` elements past the
first — produce identical results, in particular identical rows. -/
theorem c9_output_depends_only_on_read_fields (tz : Int) (doc1 doc2 : Doc)
    (h1 : doc1.dataSource = doc2.dataSource)
    (h2 : doc1.dataPoints.map (List.map dpProj) = doc2.dataPoints.map (List.map dpProj)) :
    runDoc tz doc1 = runDoc tz doc2 := by
  unfold runDoc
  rw [validate_congr doc1 doc2 h1 h2]
  have hget : (doc1.dataPoints.getD []).map dpProj = (doc2.dataPoints.getD []).map dpProj := by
    cases hp1 : doc1.dataPoints with
    | none =>
      rw [hp1] at h2
      cases hp2 : doc2.dataPoints with
      | none => rfl
      | some l2 => rw [hp2] at h2; cases h2
    | some l1 =>
      rw [hp1] at h2
      cases hp2 : doc2.dataPoints with
      | none => rw [hp2] at h2; cases h2
      | some l2 =>
        rw [hp2] at h2
        simp only [Option.map_some'] at h2
        simpa using h2
  rw [mapExtract_congr tz _ _ hget]

/-- Witness for C9: two concrete documents differing in `endTimeNanos`,
`modifiedTimeMillis` and a second `fitValue` element process identically. -/
theorem c9_witness :
    sampleDP.endTimeNanos ≠ sampleDP2.endTimeNanos ∧
    runDoc 0 sampleDoc = runDoc 0 sampleDoc2 :=
  ⟨by decide,
   c9_output_depends_only_on_read_fields 0 sampleDoc sampleDoc2 rfl rfl⟩

/-- C10: a document whose `Data Source` is present but is a number (here 5)
makes `process_weight_data` raise a fatal exception (`re.search` TypeError)
instead of taking the benign no-rows notice path: the run exits non-zero
with nothing on standard output. -/
theorem c10_nonstring_source_fatal :
    numSrcDoc.dataSource = some (.jnum 5) ∧
    runDoc 0 numSrcDoc = .error .typeErrorReSearch ∧
    mainRun 0 (fsOf (.parsed numSrcDoc)) (.strArg "n.json") =
      { exitCode := 1, stdout := [] } :=
  ⟨rfl, rfl, rfl⟩

end ImportWeight
